import Mathlib

/-!
Verification of the payment-route selection and transaction-batch assembly
logic of `src/packages/gnosis-safe/src/containers/RequestPage.tsx`
(the `pay` and `cancel` callbacks of `RequestPage`, and the address
comparisons of `Body` and `Actions`).

The external SDK collaborators (`hasSufficientFunds`, `hasErc20Approval`,
the encoders, the proxy-address registries, `getAmountToPay`,
`cancelRequest`, `isCancelError`) are modelled as abstract function
parameters bundled in a `Collabs` record: the component under
verification never interprets their outputs, it only routes them.
-/

/-- Model of `request.raw.currencyInfo` (the fields `pay` reads:
`type`, `value` — the token contract address — and `network`; the
source dereferences `network!` with a non-null assertion, so it is
modelled as a plain string). -/
structure CurrencyInfo where
  type : String
  value : String
  network : String
  deriving DecidableEq, Repr

/-- Model of `request.raw`. Only `currencyInfo` is inspected by the
code under verification; all other fields of the raw request are passed
opaquely to the external collaborators, so they are elided. -/
structure RawRequest where
  currencyInfo : CurrencyInfo
  deriving DecidableEq, Repr

/-- Model of `IParsedRequest` (the fields read by `pay`, `cancel`,
`Body` and `Actions`). `payer` is optional in the source
(`request?.payer` / `request.payer &&` guards). -/
structure IParsedRequest where
  raw : RawRequest
  requestId : String
  payee : String
  payer : Option String
  paymentAddress : String
  deriving DecidableEq, Repr

/-- Model of the Gnosis `safeInfo` object (only `safeAddress` is read). -/
structure SafeInfo where
  safeAddress : String
  deriving DecidableEq, Repr

/-- The `value` field of a transaction step: the source writes the JS
number `0` for ERC20 steps and the string
`getAmountToPay(request.raw).toString()` for the ETH step. -/
inductive TxValue where
  | num (n : Nat)
  | str (s : String)
  deriving DecidableEq, Repr

/-- One transaction step pushed onto `txs` by `pay`
(`{ to, value, data }`). -/
structure Tx where
  target : String
  value : TxValue
  data : String
  deriving DecidableEq, Repr

/-- The external collaborators imported by `RequestPage.tsx`, as opaque
functions. `getAmountToPay` returns a BigNumber, modelled as `Nat`;
the encoders return opaque calldata, modelled as `String`;
`erc20ProxyGetAddress` stands for `erc20ProxyArtifact.getAddress` and
`ethereumProxyGetAddress` for `ethereumProxyArtifact.getAddress`. -/
structure Collabs where
  hasSufficientFunds : RawRequest → String → Bool
  hasErc20Approval : RawRequest → String → Bool
  encodeApproveErc20 : RawRequest → String
  encodePayErc20Request : RawRequest → String
  encodePayEthProxyRequest : RawRequest → String
  erc20ProxyGetAddress : String → String
  ethereumProxyGetAddress : String → String
  getAmountToPay : RawRequest → Nat

/-- A record of one external-collaborator invocation made while `pay`
runs, in program order. Used to state claims about which remote calls
the code performs. -/
inductive CollabCall where
  | fundsCheck (r : RawRequest) (addr : String)
  | approvalCheck (r : RawRequest) (addr : String)
  | encodeApprove (r : RawRequest)
  | resolveErc20Address (network : String)
  | encodePayErc20 (r : RawRequest)
  | resolveEthAddress (network : String)
  | amountToPay (r : RawRequest)
  | encodePayEth (r : RawRequest)
  deriving DecidableEq, Repr

/-- How one invocation of `pay` terminates. The source surfaces the
first three failures as `alert(...)` followed by `return` (alerts
"Request not found", "Safe Info not found", "Insufficient funds");
`notImplemented` is the `alert("not implemented"); return` of the BTC
and ISO4217 branches; `submitted txs` is reaching
`appsSdk?.sendTransactions(txs)` with the accumulated steps. -/
inductive PayOutcome where
  | requestNotFound
  | safeInfoNotFound
  | insufficientFunds
  | notImplemented
  | submitted (txs : List Tx)
  deriving DecidableEq, Repr

/-- The approval step pushed in the ERC20 branch:
`{ to: request.raw.currencyInfo.value, value: 0,
data: encodeApproveErc20(request.raw) }`. -/
def approveTx (c : Collabs) (r : RawRequest) : Tx :=
  { target := r.currencyInfo.value
    value := TxValue.num 0
    data := c.encodeApproveErc20 r }

/-- The ERC20 pay step:
`{ to: erc20ProxyArtifact.getAddress(network), value: 0,
data: encodePayErc20Request(request.raw) }`. -/
def payErc20Tx (c : Collabs) (r : RawRequest) : Tx :=
  { target := c.erc20ProxyGetAddress r.currencyInfo.network
    value := TxValue.num 0
    data := c.encodePayErc20Request r }

/-- The ETH pay step:
`{ to: ethereumProxyArtifact.getAddress(network),
value: getAmountToPay(request.raw).toString(),
data: encodePayEthProxyRequest(request.raw) }`. -/
def payEthTx (c : Collabs) (r : RawRequest) : Tx :=
  { target := c.ethereumProxyGetAddress r.currencyInfo.network
    value := TxValue.str (toString (c.getAmountToPay r))
    data := c.encodePayEthProxyRequest r }

/-- The body of `pay` after the two null guards (lines 391–442).
The source tests `request.raw.currencyInfo.type` against the four tags
with sequential `if`s on the same immutable field, so at most one
branch fires and the chain is equivalent to the `else if` cascade
written here; a request whose tag matches no branch falls through to
`appsSdk?.sendTransactions(txs)` with `txs` still empty.
The second component is the list of collaborator calls performed. -/
def payTxs (c : Collabs) (r : RawRequest) (safeAddress : String) :
    PayOutcome × List CollabCall :=
  if r.currencyInfo.type = "ERC20" then
    if c.hasSufficientFunds r safeAddress then
      if c.hasErc20Approval r safeAddress then
        (PayOutcome.submitted [payErc20Tx c r],
         [CollabCall.fundsCheck r safeAddress,
          CollabCall.approvalCheck r safeAddress,
          CollabCall.resolveErc20Address r.currencyInfo.network,
          CollabCall.encodePayErc20 r])
      else
        (PayOutcome.submitted [approveTx c r, payErc20Tx c r],
         [CollabCall.fundsCheck r safeAddress,
          CollabCall.approvalCheck r safeAddress,
          CollabCall.encodeApprove r,
          CollabCall.resolveErc20Address r.currencyInfo.network,
          CollabCall.encodePayErc20 r])
    else
      (PayOutcome.insufficientFunds, [CollabCall.fundsCheck r safeAddress])
  else if r.currencyInfo.type = "ETH" then
    if c.hasSufficientFunds r safeAddress then
      (PayOutcome.submitted [payEthTx c r],
       [CollabCall.fundsCheck r safeAddress,
        CollabCall.resolveEthAddress r.currencyInfo.network,
        CollabCall.amountToPay r,
        CollabCall.encodePayEth r])
    else
      (PayOutcome.insufficientFunds, [CollabCall.fundsCheck r safeAddress])
  else if r.currencyInfo.type = "BTC" then
    (PayOutcome.notImplemented, [])
  else if r.currencyInfo.type = "ISO4217" then
    (PayOutcome.notImplemented, [])
  else
    (PayOutcome.submitted [], [])

/-- The `pay` callback (lines 377–442): null guards on `request` and
`safeInfo`, then the currency dispatch of `payTxs`. -/
def pay (c : Collabs) (request : Option IParsedRequest)
    (safeInfo : Option SafeInfo) : PayOutcome × List CollabCall :=
  match request with
  | none => (PayOutcome.requestNotFound, [])
  | some request =>
    match safeInfo with
    | none => (PayOutcome.safeInfoNotFound, [])
    | some safeInfo => payTxs c request.raw safeInfo.safeAddress

/-- How one invocation of the `cancel` callback terminates:
`pageNotReady` is the `throw new Error("cannot cancel because page is
not ready")`; `rethrown e` is the `throw e` inside the catch block;
`updated` is reaching `await update()`. -/
inductive CancelOutcome (ε : Type) where
  | pageNotReady
  | rethrown (e : ε)
  | updated
  deriving DecidableEq, Repr

/-- JS truthiness of an optional string (`!account`): null, undefined
and the empty string are falsy. -/
def strTruthy : Option String → Bool
  | none => false
  | some s => s != ""

/-- JS truthiness of an optional chain id (`!chainId`): null, undefined
and `0` are falsy. -/
def natTruthy : Option Nat → Bool
  | none => false
  | some n => n != 0

/-- The `cancel` callback (lines 444–457). The external
`cancelRequest` call either succeeds (`cancelResult = none`) or throws
an error `e` (`cancelResult = some e`); `isCancelError` is the external
recognizer. The catch block of the source is
`if (!isCancelError(e)) { } else { throw e; }`: an error the recognizer
rejects falls through to `await update()`, an error it recognizes is
rethrown. -/
def cancel {ε : Type} (isCancelError : ε → Bool)
    (request : Option IParsedRequest) (account : Option String)
    (chainId : Option Nat) (cancelResult : Option ε) : CancelOutcome ε :=
  if request.isSome && strTruthy account && natTruthy chainId then
    match cancelResult with
    | none => CancelOutcome.updated
    | some e =>
      if !(isCancelError e) then CancelOutcome.updated
      else CancelOutcome.rethrown e
  else CancelOutcome.pageNotReady

/-- JS `String.prototype.toLowerCase` on an address: character-wise
lowering. Defined over the character list so that it reduces in the
kernel (the library `String.toLower` is stated by well-founded
recursion and does not). -/
def toLowerCase (s : String) : String :=
  String.mk (s.data.map Char.toLower)

/-- `Body` line 103:
`!!account && account.toLowerCase() === request?.payee`. -/
def isAccountPayee (account : Option String)
    (request : Option IParsedRequest) : Bool :=
  match account with
  | none => false
  | some a =>
    a != "" &&
      (match request with
       | some r => toLowerCase a == r.payee
       | none => false)

/-- `Body` line 104:
`!!account && account.toLowerCase() === request?.payer`. -/
def isAccountPayer (account : Option String)
    (request : Option IParsedRequest) : Bool :=
  match account with
  | none => false
  | some a =>
    a != "" &&
      (match request with
       | some r =>
         match r.payer with
         | some p => toLowerCase a == p
         | none => false
       | none => false)

/-- `Body` lines 106–108: `!!smartContractAddress &&
smartContractAddress.toLowerCase() === request?.payee`. -/
def isSmartContractPayee (smartContractAddress : Option String)
    (request : Option IParsedRequest) : Bool :=
  match smartContractAddress with
  | none => false
  | some s =>
    s != "" &&
      (match request with
       | some r => toLowerCase s == r.payee
       | none => false)

/-- `Body` lines 109–111: `!!smartContractAddress &&
smartContractAddress.toLowerCase() === request?.payer`. -/
def isSmartContractPayer (smartContractAddress : Option String)
    (request : Option IParsedRequest) : Bool :=
  match smartContractAddress with
  | none => false
  | some s =>
    s != "" &&
      (match request with
       | some r =>
         match r.payer with
         | some p => toLowerCase s == p
         | none => false
       | none => false)

/-- `Body` lines 113–116: `request && !!smartContractAddress &&
smartContractAddress.toLowerCase() === request.paymentAddress.toLowerCase()`. -/
def isPaymentAddressSmartContract (smartContractAddress : Option String)
    (request : Option IParsedRequest) : Bool :=
  match request with
  | none => false
  | some r =>
    match smartContractAddress with
    | none => false
    | some s => s != "" && toLowerCase s == toLowerCase r.paymentAddress

/-- `Actions` lines 322–326: `request.payer &&
(request.payer?.toLowerCase() === smartContractAddress?.toLowerCase() ||
request.payer?.toLowerCase() === account?.toLowerCase())`
(a lowered payer compared against `undefined` is unequal). -/
def actionsPayerMatch (request : IParsedRequest)
    (smartContractAddress account : Option String) : Bool :=
  match request.payer with
  | none => false
  | some p =>
    p != "" &&
      ((some (toLowerCase p) == Option.map toLowerCase smartContractAddress) ||
       (some (toLowerCase p) == Option.map toLowerCase account))

/-- Concrete collaborator bundle for witnesses: oracles answer the two
given constants, encoders and registries return distinct tagged
strings. -/
def mkCollabs (funds approval : Bool) : Collabs :=
  { hasSufficientFunds := fun _ _ => funds
    hasErc20Approval := fun _ _ => approval
    encodeApproveErc20 := fun _ => "approve-data"
    encodePayErc20Request := fun _ => "pay-erc20-data"
    encodePayEthProxyRequest := fun _ => "pay-eth-data"
    erc20ProxyGetAddress := fun n => "erc20proxy@" ++ n
    ethereumProxyGetAddress := fun n => "ethproxy@" ++ n
    getAmountToPay := fun _ => 100 }

/-- Concrete ERC20 request for witnesses. -/
def reqErc20 : IParsedRequest :=
  { raw := { currencyInfo := { type := "ERC20", value := "0xtoken", network := "1" } }
    requestId := "req-1"
    payee := "0xpayee"
    payer := some "0xpayer"
    paymentAddress := "0xpayment" }

/-- Concrete ETH request for witnesses. -/
def reqEth : IParsedRequest :=
  { raw := { currencyInfo := { type := "ETH", value := "", network := "5" } }
    requestId := "req-2"
    payee := "0xpayee"
    payer := some "0xpayer"
    paymentAddress := "0xpayment" }

/-- Concrete BTC request for witnesses. -/
def reqBtc : IParsedRequest :=
  { raw := { currencyInfo := { type := "BTC", value := "", network := "" } }
    requestId := "req-3"
    payee := "0xpayee"
    payer := some "0xpayer"
    paymentAddress := "0xpayment" }

/-- Concrete request with an unrecognized currency tag. -/
def reqDoge : IParsedRequest :=
  { raw := { currencyInfo := { type := "DOGE", value := "", network := "" } }
    requestId := "req-4"
    payee := "0xpayee"
    payer := some "0xpayer"
    paymentAddress := "0xpayment" }

/-- Concrete safe info for witnesses. -/
def safeA : SafeInfo := { safeAddress := "0xsafe-a" }

/-- Second concrete safe info, a different payer address. -/
def safeB : SafeInfo := { safeAddress := "0xsafe-b" }

/-- Request whose stored payee is lower-case. -/
def reqPayeeLower : IParsedRequest :=
  { raw := { currencyInfo := { type := "ERC20", value := "", network := "1" } }
    requestId := "req-5"
    payee := "0xab"
    payer := some "0xab"
    paymentAddress := "0xab" }

/-- The same request with the payee spelled in upper case: the same
chain address, differing only in letter case. -/
def reqPayeeUpper : IParsedRequest :=
  { raw := { currencyInfo := { type := "ERC20", value := "", network := "1" } }
    requestId := "req-5"
    payee := "0xAB"
    payer := some "0xab"
    paymentAddress := "0xab" }

/-- Claim C1: for an ERC20 request with sufficient funds and
insufficient allowance, `pay` submits exactly two steps: first the
approval step (target = the token contract address
`currencyInfo.value`, value 0, approve payload), then the pay step
(target = the resolved ERC20-proxy address for the request's network,
value 0, pay-ERC20 payload); the approval step precedes the pay step. -/
theorem pay_erc20_without_allowance (c : Collabs) (req : IParsedRequest)
    (si : SafeInfo)
    (htype : req.raw.currencyInfo.type = "ERC20")
    (hfunds : c.hasSufficientFunds req.raw si.safeAddress = true)
    (happr : c.hasErc20Approval req.raw si.safeAddress = false) :
    (pay c (some req) (some si)).1 =
      PayOutcome.submitted
        [{ target := req.raw.currencyInfo.value
           value := TxValue.num 0
           data := c.encodeApproveErc20 req.raw },
         { target := c.erc20ProxyGetAddress req.raw.currencyInfo.network
           value := TxValue.num 0
           data := c.encodePayErc20Request req.raw }] := by
  simp [pay, payTxs, htype, hfunds, happr, approveTx, payErc20Tx]

/-- Witness for the ERC20 approve-then-pay theorem at a concrete
request, safe and collaborator bundle. -/
theorem pay_erc20_without_allowance_witness :
    (pay (mkCollabs true false) (some reqErc20) (some safeA)).1 =
      PayOutcome.submitted
        [{ target := reqErc20.raw.currencyInfo.value
           value := TxValue.num 0
           data := (mkCollabs true false).encodeApproveErc20 reqErc20.raw },
         { target := (mkCollabs true false).erc20ProxyGetAddress
             reqErc20.raw.currencyInfo.network
           value := TxValue.num 0
           data := (mkCollabs true false).encodePayErc20Request reqErc20.raw }] :=
  pay_erc20_without_allowance (mkCollabs true false) reqErc20 safeA rfl rfl rfl

/-- Claim C2: for an ERC20 request with sufficient funds and sufficient
allowance, `pay` submits exactly one step, the pay step (target = the
resolved ERC20-proxy address for the request's network, value 0,
pay-ERC20 payload); no approval step is included. -/
theorem pay_erc20_with_allowance (c : Collabs) (req : IParsedRequest)
    (si : SafeInfo)
    (htype : req.raw.currencyInfo.type = "ERC20")
    (hfunds : c.hasSufficientFunds req.raw si.safeAddress = true)
    (happr : c.hasErc20Approval req.raw si.safeAddress = true) :
    (pay c (some req) (some si)).1 =
      PayOutcome.submitted
        [{ target := c.erc20ProxyGetAddress req.raw.currencyInfo.network
           value := TxValue.num 0
           data := c.encodePayErc20Request req.raw }] := by
  simp [pay, payTxs, htype, hfunds, happr, payErc20Tx]

/-- Witness for the ERC20 single-pay-step theorem at a concrete request,
safe and collaborator bundle. -/
theorem pay_erc20_with_allowance_witness :
    (pay (mkCollabs true true) (some reqErc20) (some safeA)).1 =
      PayOutcome.submitted
        [{ target := (mkCollabs true true).erc20ProxyGetAddress
             reqErc20.raw.currencyInfo.network
           value := TxValue.num 0
           data := (mkCollabs true true).encodePayErc20Request reqErc20.raw }] :=
  pay_erc20_with_allowance (mkCollabs true true) reqErc20 safeA rfl rfl rfl

/-- Claim C3: for a native-ETH request (source tag "ETH") with
sufficient funds, `pay` submits exactly one step whose target is the
address resolved from the ETH-proxy registry for the request's network,
whose value is `getAmountToPay(request.raw).toString()`, and whose
payload is the encode-pay-eth-proxy encoding of the request. -/
theorem pay_eth_sufficient_funds (c : Collabs) (req : IParsedRequest)
    (si : SafeInfo)
    (htype : req.raw.currencyInfo.type = "ETH")
    (hfunds : c.hasSufficientFunds req.raw si.safeAddress = true) :
    (pay c (some req) (some si)).1 =
      PayOutcome.submitted
        [{ target := c.ethereumProxyGetAddress req.raw.currencyInfo.network
           value := TxValue.str (toString (c.getAmountToPay req.raw))
           data := c.encodePayEthProxyRequest req.raw }] := by
  simp [pay, payTxs, htype, hfunds, payEthTx]

/-- Witness for the native-ETH theorem at a concrete request, safe and
collaborator bundle. -/
theorem pay_eth_sufficient_funds_witness :
    (pay (mkCollabs true true) (some reqEth) (some safeA)).1 =
      PayOutcome.submitted
        [{ target := (mkCollabs true true).ethereumProxyGetAddress
             reqEth.raw.currencyInfo.network
           value := TxValue.str (toString ((mkCollabs true true).getAmountToPay reqEth.raw))
           data := (mkCollabs true true).encodePayEthProxyRequest reqEth.raw }] :=
  pay_eth_sufficient_funds (mkCollabs true true) reqEth safeA rfl rfl

/-- Claim C4: for an ERC20 or native-ETH request with insufficient
funds, `pay` stops with the insufficient-funds outcome, having queried
only the funds oracle: no transaction step is built and nothing is
submitted. -/
theorem pay_insufficient_funds (c : Collabs) (req : IParsedRequest)
    (si : SafeInfo)
    (htype : req.raw.currencyInfo.type = "ERC20" ∨
      req.raw.currencyInfo.type = "ETH")
    (hfunds : c.hasSufficientFunds req.raw si.safeAddress = false) :
    pay c (some req) (some si) =
      (PayOutcome.insufficientFunds,
       [CollabCall.fundsCheck req.raw si.safeAddress]) := by
  rcases htype with h | h <;> simp [pay, payTxs, h, hfunds]

/-- Witness for the insufficient-funds theorem at a concrete ERC20
request whose funds oracle answers false. -/
theorem pay_insufficient_funds_witness :
    pay (mkCollabs false true) (some reqErc20) (some safeA) =
      (PayOutcome.insufficientFunds,
       [CollabCall.fundsCheck reqErc20.raw safeA.safeAddress]) :=
  pay_insufficient_funds (mkCollabs false true) reqErc20 safeA (Or.inl rfl) rfl

/-- Claim C5: for a BTC or ISO4217 request, `pay` stops with the
not-implemented outcome (the source's `alert("not implemented");
return`, the spec's `UnsupportedCurrency`) and the collaborator-call
log is empty: no funds-oracle, allowance-oracle, encoder or
proxy-registry call is made. -/
theorem pay_unsupported_currency (c : Collabs) (req : IParsedRequest)
    (si : SafeInfo)
    (htype : req.raw.currencyInfo.type = "BTC" ∨
      req.raw.currencyInfo.type = "ISO4217") :
    pay c (some req) (some si) = (PayOutcome.notImplemented, []) := by
  rcases htype with h | h <;> simp [pay, payTxs, h]

/-- Witness for the unsupported-currency theorem at a concrete BTC
request. -/
theorem pay_unsupported_currency_witness :
    pay (mkCollabs true true) (some reqBtc) (some safeA) =
      (PayOutcome.notImplemented, []) :=
  pay_unsupported_currency (mkCollabs true true) reqBtc safeA (Or.inl rfl)

/-- Claim C6, evaluated at the failing input: for a request whose
currency tag is outside {ERC20, ETH, BTC, ISO4217} (here "DOGE"), the
source raises no error at all — every branch is skipped and control
falls through to `appsSdk?.sendTransactions(txs)` with the still-empty
step list, i.e. the call completes silently with an empty submitted
batch instead of failing with an unrecognized-currency-kind error. -/
theorem pay_unrecognized_kind_falls_through :
    pay (mkCollabs true true) (some reqDoge) (some safeA) =
      (PayOutcome.submitted [], []) := by
  simp [pay, payTxs, reqDoge]

/-- Claim C7, evaluated at the failing input: the catch block of
`cancel` is `if (!isCancelError(e)) { } else { throw e; }`, so an error
the recognizer accepts is rethrown while an error it rejects is
swallowed and `update()` runs — the opposite of suppressing recognized
cancellation errors and rethrowing unrecognized ones. -/
theorem cancel_rethrows_recognized_error :
    cancel (fun _ : Nat => true) (some reqErc20) (some "0xacc") (some 1)
        (some 7) = CancelOutcome.rethrown 7 ∧
    cancel (fun _ : Nat => false) (some reqErc20) (some "0xacc") (some 1)
        (some 7) = CancelOutcome.updated := by
  constructor <;> rfl

/-- Claim C8: the payer chain address (the safe address) feeds only the
funds and allowance oracle queries; if the two oracles answer the same
for two different safe addresses, the assembled outcome — every target,
value and payload, and whether anything is submitted — is identical. -/
theorem pay_payer_address_noninterference (c : Collabs)
    (req : IParsedRequest) (s1 s2 : SafeInfo)
    (hf : c.hasSufficientFunds req.raw s1.safeAddress =
      c.hasSufficientFunds req.raw s2.safeAddress)
    (ha : c.hasErc20Approval req.raw s1.safeAddress =
      c.hasErc20Approval req.raw s2.safeAddress) :
    (pay c (some req) (some s1)).1 = (pay c (some req) (some s2)).1 := by
  simp only [pay, payTxs]
  rw [← hf, ← ha]
  by_cases h1 : req.raw.currencyInfo.type = "ERC20" <;>
    by_cases h2 : req.raw.currencyInfo.type = "ETH" <;>
    cases hb : c.hasSufficientFunds req.raw s1.safeAddress <;>
    cases hc : c.hasErc20Approval req.raw s1.safeAddress <;>
    simp [h1, h2, hb, hc]

/-- Witness for the payer-address noninterference theorem: two distinct
safe addresses under constant oracles yield the same outcome. -/
theorem pay_payer_address_noninterference_witness :
    (pay (mkCollabs true false) (some reqErc20) (some safeA)).1 =
      (pay (mkCollabs true false) (some reqErc20) (some safeB)).1 :=
  pay_payer_address_noninterference (mkCollabs true false) reqErc20
    safeA safeB rfl rfl

/-- Claim C9, counterexample: the `Body` comparison
`account.toLowerCase() === request?.payee` lowercases only the account
side, so it is not case-insensitive in the stored payee: the two
requests below hold the same payee address spelled in different case
(the lowered forms agree), yet the comparison accepts one and rejects
the other for the same account. -/
theorem isAccountPayee_case_sensitive_counterexample :
    isAccountPayee (some "0xab") (some reqPayeeLower) = true ∧
    isAccountPayee (some "0xab") (some reqPayeeUpper) = false ∧
    toLowerCase reqPayeeLower.payee = toLowerCase reqPayeeUpper.payee := by
  refine ⟨by decide, by decide, by decide⟩

/-- Claim C9, amended: the `Body` comparisons of payee/payer against
the connected account or the safe address (lines 103–111) are
case-insensitive in the account / safe-address argument only (the
stored payee/payer side is compared as-is), while the
payment-address-vs-safe comparison (lines 113–116) and the `Actions`
payer guard (lines 322–326) lowercase both sides and are
case-insensitive in every address argument. -/
theorem address_comparisons_case_insensitivity
    (a a' s s' p p' pm pm' : String) (r r2 : IParsedRequest)
    (hane : a ≠ "") (hane' : a' ≠ "")
    (ha : toLowerCase a = toLowerCase a')
    (hsne : s ≠ "") (hsne' : s' ≠ "")
    (hs : toLowerCase s = toLowerCase s')
    (hpne : p ≠ "") (hpne' : p' ≠ "")
    (hp : toLowerCase p = toLowerCase p')
    (hpm : toLowerCase pm = toLowerCase pm') :
    isAccountPayee (some a) (some r) = isAccountPayee (some a') (some r) ∧
    isAccountPayer (some a) (some r) = isAccountPayer (some a') (some r) ∧
    isSmartContractPayee (some s) (some r) =
      isSmartContractPayee (some s') (some r) ∧
    isSmartContractPayer (some s) (some r) =
      isSmartContractPayer (some s') (some r) ∧
    isPaymentAddressSmartContract (some s)
        (some { r with paymentAddress := pm }) =
      isPaymentAddressSmartContract (some s')
        (some { r with paymentAddress := pm' }) ∧
    actionsPayerMatch { r2 with payer := some p } (some s) (some a) =
      actionsPayerMatch { r2 with payer := some p' } (some s') (some a') := by
  have ha1 : (a != "") = true := bne_iff_ne.mpr hane
  have ha2 : (a' != "") = true := bne_iff_ne.mpr hane'
  have hs1 : (s != "") = true := bne_iff_ne.mpr hsne
  have hs2 : (s' != "") = true := bne_iff_ne.mpr hsne'
  have hp1 : (p != "") = true := bne_iff_ne.mpr hpne
  have hp2 : (p' != "") = true := bne_iff_ne.mpr hpne'
  refine ⟨?_, ?_, ?_, ?_, ?_, ?_⟩
  · simp [isAccountPayee, ha1, ha2, ha]
  · simp [isAccountPayer, ha1, ha2, ha]
  · simp [isSmartContractPayee, hs1, hs2, hs]
  · simp [isSmartContractPayer, hs1, hs2, hs]
  · simp [isPaymentAddressSmartContract, hs1, hs2, hs, hpm]
  · simp [actionsPayerMatch, hp1, hp2, hp, hs, ha]

/-- Witness for the amended case-insensitivity theorem at concrete
addresses differing only in letter case. -/
theorem address_comparisons_case_insensitivity_witness :
    isAccountPayee (some "0xAB") (some reqPayeeLower) =
      isAccountPayee (some "0xab") (some reqPayeeLower) ∧
    isAccountPayer (some "0xAB") (some reqPayeeLower) =
      isAccountPayer (some "0xab") (some reqPayeeLower) ∧
    isSmartContractPayee (some "0xSafe") (some reqPayeeLower) =
      isSmartContractPayee (some "0xsafe") (some reqPayeeLower) ∧
    isSmartContractPayer (some "0xSafe") (some reqPayeeLower) =
      isSmartContractPayer (some "0xsafe") (some reqPayeeLower) ∧
    isPaymentAddressSmartContract (some "0xSafe")
        (some { reqPayeeLower with paymentAddress := "0xPm" }) =
      isPaymentAddressSmartContract (some "0xsafe")
        (some { reqPayeeLower with paymentAddress := "0xpm" }) ∧
    actionsPayerMatch { reqPayeeLower with payer := some "0xPayer" }
        (some "0xSafe") (some "0xAB") =
      actionsPayerMatch { reqPayeeLower with payer := some "0xpayer" }
        (some "0xsafe") (some "0xab") :=
  address_comparisons_case_insensitivity "0xAB" "0xab" "0xSafe" "0xsafe"
    "0xPayer" "0xpayer" "0xPm" "0xpm" reqPayeeLower reqPayeeLower
    (by decide) (by decide) (by decide) (by decide) (by decide) (by decide)
    (by decide) (by decide) (by decide) (by decide)

/-- Claim C10: when the parsed request or the safe information is
absent, `pay` returns early at the corresponding null guard: no oracle
or encoder call is logged, no step is built and nothing is submitted. -/
theorem pay_missing_request_or_safe (c : Collabs)
    (request : Option IParsedRequest) (safeInfo : Option SafeInfo)
    (h : request = none ∨ safeInfo = none) :
    pay c request safeInfo = (PayOutcome.requestNotFound, []) ∨
    pay c request safeInfo = (PayOutcome.safeInfoNotFound, []) := by
  rcases h with h | h
  · subst h
    exact Or.inl rfl
  · subst h
    cases request with
    | none => exact Or.inl rfl
    | some r => exact Or.inr rfl

/-- Witness for the early-return theorem with an absent safe info. -/
theorem pay_missing_request_or_safe_witness :
    pay (mkCollabs true true) (some reqErc20) none =
      (PayOutcome.requestNotFound, []) ∨
    pay (mkCollabs true true) (some reqErc20) none =
      (PayOutcome.safeInfoNotFound, []) :=
  pay_missing_request_or_safe (mkCollabs true true) (some reqErc20) none
    (Or.inr rfl)
